import Mathlib

/-!
Verification of the aqua-swap program (a two-party custodial token-swap
contract) against its natural-language specification.

The development shallowly embeds the three instruction handlers
(`create`, `swap`, `close`), the persistent `SwapState` record and the
fixed-point arithmetic helpers (`compute_base_units`,
`calculate_base_bonus`, `calculate_quote_bonus`) from
`src/instructions/{create,swap,close}.rs` and `src/states/state.rs`.

Machine integers (`u64`, `u128`) are modelled as `Nat` together with the
explicit overflow checks the source performs (Rust `checked_mul`,
`checked_div`, `checked_pow`, `checked_sub` on fixed-width integers).
Handlers are modelled as pure functions from an input record (account
keys, signer flags and the parse results of the externally supplied
accounts) to a trace of issued transfer effects plus a terminal outcome;
an external-call view that fails to parse is modelled as `none`.
-/

namespace AquaSwap

/-- Largest value representable in an unsigned 64-bit integer. -/
def U64_MAX : Nat := 18446744073709551615

/-- First value NOT representable in an unsigned 128-bit integer, i.e. 2^128. -/
def U128_SIZE : Nat := 340282366920938463463374607431768211456

/-- Rust `u128::checked_mul`: `some (a * b)` unless the product overflows 128 bits. -/
def checked_mul_u128 (a b : Nat) : Option Nat :=
  if a * b < U128_SIZE then some (a * b) else none

/-- Rust `10u128.checked_pow d`: `some (10 ^ d)` unless the power overflows 128 bits.
(`checked_pow` checks every intermediate product; for base 10 that is equivalent
to checking the final power.) -/
def checked_pow10_u128 (d : Nat) : Option Nat :=
  if 10 ^ d < U128_SIZE then some (10 ^ d) else none

/-- Rust `u128::checked_div`: `none` exactly on a zero divisor. -/
def checked_div_u128 (a b : Nat) : Option Nat :=
  if b = 0 then none else some (a / b)

/-- Rust `u64::checked_sub`: `none` exactly when the subtraction would underflow. -/
def checked_sub_u64 (a b : Nat) : Option Nat :=
  if b ≤ a then some (a - b) else none

/-- Error outcomes of the program, named after the `SwapError` / `ProgramError`
variants used at the failure sites in the source. -/
inductive SwapErr where
  | invalidParameters
  | invalidInstructionData
  | invalidAccountData
  | missingRequiredSignature
  | notEnoughAccountKeys
  | accountTakenAlready
  | invalidPDA
  | wrongVaultBase
  | wrongVaultQuote
  | wrongOwnerBase
  | wrongOwnerQuote
  | wrongMintBase
  | wrongMintQuote
  | sameMint
  | notOwner
  deriving DecidableEq, Repr

/-- `compute_base_units` from `src/instructions/swap.rs` lines 400-434:
converts a quote amount into base smallest units from the 1e9-scaled price
and the two mints' decimals, with checked `u128` arithmetic throughout. -/
def compute_base_units (quote_units price_scaled : Nat)
    (base_decimals quote_decimals : Nat) : Except SwapErr Nat :=
  if price_scaled = 0 then .error .invalidParameters else
  match checked_pow10_u128 base_decimals with
  | none => .error .invalidParameters
  | some base_scale =>
  match checked_pow10_u128 quote_decimals with
  | none => .error .invalidParameters
  | some quote_scale =>
  match checked_mul_u128 quote_units base_scale with
  | none => .error .invalidParameters
  | some v =>
  match checked_mul_u128 v 1000000000 with
  | none => .error .invalidParameters
  | some num =>
  match checked_mul_u128 price_scaled quote_scale with
  | none => .error .invalidParameters
  | some den =>
  match checked_div_u128 num den with
  | none => .error .invalidParameters
  | some units =>
  if units = 0 ∨ units > U64_MAX then .error .invalidParameters
  else .ok units

/-- `calculate_base_bonus` from `src/instructions/swap.rs` lines 325-356.
`bonus_percentage` is a `u128` at the call site (the caller casts the stored
`u64` rate up); the zero rate short-circuits before any arithmetic. -/
def calculate_base_bonus (bonus_percentage base_out : Nat) : Except SwapErr Nat :=
  if bonus_percentage = 0 then .ok 0 else
  match checked_mul_u128 base_out bonus_percentage with
  | none => .error .invalidParameters
  | some numerator =>
  match checked_div_u128 numerator 100000000000 with
  | none => .error .invalidParameters
  | some bonus_amount =>
  if bonus_amount > U64_MAX then .error .invalidParameters
  else .ok bonus_amount

/-- `calculate_quote_bonus` from `src/instructions/swap.rs` lines 370-397.
Both arguments are `u64` in the source and widened to `u128` for the product. -/
def calculate_quote_bonus (bonus_percentage quote_in : Nat) : Except SwapErr Nat :=
  if bonus_percentage = 0 then .ok 0 else
  match checked_mul_u128 quote_in bonus_percentage with
  | none => .error .invalidParameters
  | some numerator =>
  match checked_div_u128 numerator 100000000000 with
  | none => .error .invalidParameters
  | some bonus_amount =>
  if bonus_amount > U64_MAX then .error .invalidParameters
  else .ok bonus_amount

/-- The specification's formula for the swap conversion (spec section 4.2):
`floor(quote_in * 10^base_decimals * 10^9 / (price_scaled * 10^quote_decimals))`.
Stated from the spec's words, to be compared with `compute_base_units`. -/
def spec_quote_to_base (quote_in price_scaled base_decimals quote_decimals : Nat) : Nat :=
  quote_in * 10 ^ base_decimals * 1000000000 / (price_scaled * 10 ^ quote_decimals)

/-- Account addresses (32-byte public keys) modelled as natural numbers. -/
abbrev Pubkey := Nat

/-- The native-wrapped-asset mint `So11111111111111111111111111111111111111112`
(`decode_32_const` in the source), as the big-endian value of its 32 bytes. -/
def WSOL_MINT : Pubkey :=
  2988679396378646993494765771507681406623014513651778753134412041978399162369

/-- The key and signer flag of a supplied account (`AccountInfo` in the source). -/
structure AccountInfo where
  key : Pubkey
  is_signer : Bool
  deriving DecidableEq, Repr

/-- The fields the handlers read from a parsed SPL `TokenAccount`. -/
structure TokenAccountData where
  mint : Pubkey
  owner : Pubkey
  amount : Nat
  deriving DecidableEq, Repr

/-- The field the handlers read from a parsed SPL `Mint`. -/
structure MintData where
  decimals : Nat
  deriving DecidableEq, Repr

/-- The persistent Position Record, `SwapState` from `src/states/state.rs`. -/
structure SwapState where
  owner : Pubkey
  base : Pubkey
  quote : Pubkey
  uuid : Nat
  price : Nat
  bonus_base : Nat
  bonus_quote : Nat
  bump_seed : Nat
  quote_sol : Bool
  deriving DecidableEq, Repr

/-- The record with every field zero, i.e. the contents of a storage account
whose bytes have been cleared by `data.fill(0)` in the close handler. -/
def zeroSwapState : SwapState :=
  { owner := 0, base := 0, quote := 0, uuid := 0, price := 0,
    bonus_base := 0, bonus_quote := 0, bump_seed := 0, quote_sol := false }

/-- Byte size of `SwapState` (`repr(C, packed)`): 3 * 32 + 16 + 3 * 8 + 1 + 1. -/
def swapStateLen : Nat := 138

/-- External calls a handler issues, in order, before its terminal outcome.
Constructors mirror the invoked instructions in the source: SPL
`TransferChecked` / `Transfer` / `CloseAccount`, the associated-token-account
`Create` / `CreateIdempotent`, the system-program lamports `Transfer` and
`CreateAccount`. -/
inductive Effect where
  | transferChecked (source mint dest authority : Pubkey) (amount decimals : Nat)
  | tokenTransfer (source dest authority : Pubkey) (amount : Nat)
  | closeAccount (account dest authority : Pubkey)
  | createIdempotentAta (funding account wallet mint : Pubkey)
  | createAta (funding account wallet mint : Pubkey)
  | solTransfer (source dest : Pubkey) (lamports : Nat)
  | createAccount (funding dest : Pubkey) (space : Nat)
  deriving DecidableEq, Repr

/-- Interpret a byte list as a little-endian natural number (the in-memory
reading an `unsafe` pointer cast of a packed struct performs on the target). -/
def leBytes (l : List Nat) : Nat :=
  l.foldr (fun b acc => b + 256 * acc) 0

/-- Little-endian byte encoding of `n` into `k` bytes (test-vector builder). -/
def natToLeBytes : Nat → Nat → List Nat
  | _, 0 => []
  | n, k + 1 => n % 256 :: natToLeBytes (n / 256) k

/-! ## Swap handler, `src/instructions/swap.rs` -/

/-- The swap handler's account inputs: the eleven account keys in positional
order, the taker's signer flag, and the parse views of the accounts the handler
decodes (`none` models a failing `from_account_info` / state load). -/
structure SwapInputs where
  user_acc : AccountInfo
  swap_acc_key : Pubkey
  vault_base_key : Pubkey
  vault_quote_key : Pubkey
  user_base_key : Pubkey
  user_quote_key : Pubkey
  base_mint_key : Pubkey
  quote_mint_key : Pubkey
  bonus_base_key : Pubkey
  bonus_quote_key : Pubkey
  wsol_temp_key : Pubkey
  swap_state : Option SwapState
  vault_base : Option TokenAccountData
  user_base : Option TokenAccountData
  user_quote : Option TokenAccountData
  base_mint : Option MintData
  quote_mint : Option MintData
  vault_quote : Option TokenAccountData
  bonus_base_token : Option TokenAccountData
  deriving DecidableEq, Repr

/-- Lines 281-302 of `swap.rs`: the base-side bonus stage that runs after the
vault-to-taker base transfer. Returns the extra effects it issues and the
terminal error if it aborts. -/
def swap_base_bonus (i : SwapInputs) (st : SwapState)
    (base_out base_decimals : Nat) : List Effect × Option SwapErr :=
  if st.bonus_base ≠ 0 ∧ i.bonus_base_key ≠ i.user_base_key then
    match i.bonus_base_token with
    | none => ([], some .invalidAccountData)
    | some bt =>
      if bt.mint ≠ i.base_mint_key then ([], some .wrongMintBase)
      else
        match calculate_base_bonus st.bonus_base base_out with
        | .error e => ([], some e)
        | .ok bonus_base_amount =>
          ([.transferChecked i.vault_base_key i.base_mint_key i.bonus_base_key
            i.swap_acc_key bonus_base_amount base_decimals], none)
  else ([], none)

/-- Lines 134-306 of `swap.rs`: the computation and transfer stage entered once
every account validation has passed. Returns the effects issued, in order, and
`none` for success or `some e` where the handler aborted. -/
def swapTransfers (i : SwapInputs) (st : SwapState)
    (quote_in base_decimals quote_decimals : Nat) : List Effect × Option SwapErr :=
  match compute_base_units quote_in st.price base_decimals quote_decimals with
  | .error e => ([], some e)
  | .ok base_out =>
  match (if st.bonus_quote ≠ 0 ∧ i.bonus_quote_key ≠ i.user_quote_key
         then calculate_quote_bonus st.bonus_quote quote_in
         else .ok 0) with
  | .error e => ([], some e)
  | .ok quote_in_bonus =>
  match checked_sub_u64 quote_in quote_in_bonus with
  | none => ([], some .invalidParameters)
  | some quote_in_vault =>
  let leg_quote : List Effect :=
    if st.quote_sol then
      [.createIdempotentAta i.user_acc.key i.wsol_temp_key i.swap_acc_key i.quote_mint_key,
       .transferChecked i.user_quote_key i.quote_mint_key i.wsol_temp_key i.user_acc.key
         quote_in_vault quote_decimals,
       .closeAccount i.wsol_temp_key i.user_acc.key i.swap_acc_key,
       .solTransfer i.user_acc.key i.vault_quote_key quote_in_vault]
    else
      [.transferChecked i.user_quote_key i.quote_mint_key i.vault_quote_key i.user_acc.key
         quote_in_vault quote_decimals]
  let leg_quote_bonus : List Effect :=
    if quote_in_bonus > 0 then
      if st.quote_sol then
        [.createAta i.user_acc.key i.wsol_temp_key i.swap_acc_key i.quote_mint_key,
         .transferChecked i.user_quote_key i.quote_mint_key i.wsol_temp_key i.user_acc.key
           quote_in_bonus quote_decimals,
         .closeAccount i.wsol_temp_key i.user_acc.key i.swap_acc_key,
         .solTransfer i.user_acc.key i.bonus_quote_key quote_in_bonus]
      else
        [.transferChecked i.user_quote_key i.quote_mint_key i.bonus_quote_key i.user_acc.key
           quote_in_bonus quote_decimals]
    else []
  let leg_base : List Effect :=
    [.transferChecked i.vault_base_key i.base_mint_key i.user_base_key i.swap_acc_key
       base_out base_decimals]
  let tail := swap_base_bonus i st base_out base_decimals
  (leg_quote ++ leg_quote_bonus ++ leg_base ++ tail.1, tail.2)

/-- The swap handler, `swap` in `src/instructions/swap.rs`: signer check,
8-byte payload decode with `quote_in != 0`, state load, account parses,
decimal resolution, the vault / owner / mint cross-checks in source order,
then the transfer stage. -/
def swap (i : SwapInputs) (data : List Nat) : List Effect × Option SwapErr :=
  if i.user_acc.is_signer = false then ([], some .missingRequiredSignature) else
  if data.length ≠ 8 then ([], some .invalidInstructionData) else
  let quote_in := leBytes data
  if quote_in = 0 then ([], some .invalidInstructionData) else
  match i.swap_state with
  | none => ([], some .invalidAccountData)
  | some st =>
  match i.vault_base, i.user_base, i.user_quote, i.base_mint with
  | some vb, some ub, some uq, some bm =>
    let base_decimals := bm.decimals
    match (if st.quote_sol then some 9 else i.quote_mint.map MintData.decimals) with
    | none => ([], some .invalidAccountData)
    | some quote_decimals =>
    if st.base ≠ i.vault_base_key then ([], some .wrongVaultBase) else
    if st.quote ≠ i.vault_quote_key then ([], some .wrongVaultQuote) else
    if vb.owner ≠ i.swap_acc_key then ([], some .wrongOwnerBase) else
    if vb.mint ≠ ub.mint then ([], some .wrongMintBase) else
    if vb.mint ≠ i.base_mint_key then ([], some .wrongMintBase) else
    if st.quote_sol = false then
      match i.vault_quote with
      | none => ([], some .invalidAccountData)
      | some vq =>
        if vq.owner = i.swap_acc_key then ([], some .wrongOwnerQuote) else
        if vq.mint ≠ uq.mint then ([], some .wrongMintQuote) else
        if vq.mint ≠ i.quote_mint_key then ([], some .wrongMintQuote) else
        swapTransfers i st quote_in base_decimals quote_decimals
    else
      if i.quote_mint_key ≠ WSOL_MINT then ([], some .wrongMintQuote) else
      swapTransfers i st quote_in base_decimals quote_decimals
  | _, _, _, _ => ([], some .invalidAccountData)

/-! ## Open handler, `src/instructions/create.rs` -/

/-- The open payload `CreateData` (`repr(C, packed)`, 42 bytes):
`uuid:u128, price:u64, bonus_base:u64, bonus_quote:u64, bump_seed:u8,
require_verify:bool` (the trailing flag is kept as its raw byte). -/
structure CreateData where
  uuid : Nat
  price : Nat
  bonus_base : Nat
  bonus_quote : Nat
  bump_seed : Nat
  require_verify : Nat
  deriving DecidableEq, Repr

/-- Modelled from the spec: the decode helper `load_ix_data` lives in
`src/states/utils.rs`, which is absent from the provided sources; spec
section 4.3 step 1 requires "Decode payload; reject if the byte length does
not exactly match the expected fixed layout", so the decode checks the exact
42-byte length and then reads the packed little-endian fields. -/
def decodeCreateData (data : List Nat) : Option CreateData :=
  if data.length = 42 then
    some { uuid := leBytes (data.take 16),
           price := leBytes ((data.drop 16).take 8),
           bonus_base := leBytes ((data.drop 24).take 8),
           bonus_quote := leBytes ((data.drop 32).take 8),
           bump_seed := (data.drop 40).headD 0,
           require_verify := (data.drop 41).headD 0 }
  else none

/-- The open handler's account inputs: the account keys in positional order,
the owner's signer flag, whether the storage account's data is empty, the
parse views of the base and quote token accounts, and whether the rent sysvar
parses. -/
structure CreateInputs where
  owner_acc : AccountInfo
  verify_key : Pubkey
  swap_key : Pubkey
  base_key : Pubkey
  quote_key : Pubkey
  swap_data_empty : Bool
  base_token : Option TokenAccountData
  quote_token : Option TokenAccountData
  rent_ok : Bool
  deriving DecidableEq, Repr

/-- Outcome of the open handler: issued effects, terminal error if any, and
the Position Record written by `SwapState::create_swap` on success. -/
structure CreateResult where
  effects : List Effect
  err : Option SwapErr
  written : Option SwapState
  deriving DecidableEq, Repr

/-- The body of the open handler after payload decode, `create` in
`src/instructions/create.rs` lines 43-113 plus `SwapState::create_swap`
from `src/states/state.rs`: signer check, PDA validation, emptiness check,
token-account parses, same-mint / custody checks, nonzero price, native-quote
detection, account allocation and record population. The address derivation
(an external hash) is passed in as `derive : uuid -> bump -> address`. -/
def create_with_data (derive : Nat → Nat → Pubkey) (i : CreateInputs)
    (d : CreateData) : CreateResult :=
  if i.owner_acc.is_signer = false then ⟨[], some .missingRequiredSignature, none⟩ else
  if derive d.uuid d.bump_seed ≠ i.swap_key then ⟨[], some .invalidPDA, none⟩ else
  if i.swap_data_empty = false then ⟨[], some .accountTakenAlready, none⟩ else
  match i.base_token with
  | none => ⟨[], some .invalidAccountData, none⟩
  | some bt =>
  match i.quote_token with
  | none => ⟨[], some .invalidAccountData, none⟩
  | some qt =>
  if bt.mint = qt.mint then ⟨[], some .sameMint, none⟩ else
  if bt.owner ≠ i.swap_key then ⟨[], some .wrongOwnerBase, none⟩ else
  if qt.owner = i.swap_key then ⟨[], some .wrongOwnerQuote, none⟩ else
  if d.price = 0 then ⟨[], some .invalidParameters, none⟩ else
  let quote_sol := qt.mint = WSOL_MINT
  if i.rent_ok = false then ⟨[], some .invalidAccountData, none⟩ else
  ⟨[.createAccount i.owner_acc.key i.swap_key swapStateLen], none,
   some { owner := i.owner_acc.key,
          base := i.base_key,
          quote := if quote_sol then qt.owner else i.quote_key,
          uuid := d.uuid,
          price := d.price,
          bonus_base := d.bonus_base,
          bonus_quote := d.bonus_quote,
          bump_seed := d.bump_seed,
          quote_sol := quote_sol }⟩

/-- The open handler, `create` in `src/instructions/create.rs`: the payload is
decoded first (line 40), then the handler body runs. -/
def create (derive : Nat → Nat → Pubkey) (i : CreateInputs)
    (data : List Nat) : CreateResult :=
  match decodeCreateData data with
  | none => ⟨[], some .invalidInstructionData, none⟩
  | some d => create_with_data derive i d

/-! ## Close handler, `src/instructions/close.rs` -/

/-- The close handler's account inputs: keys in positional order, the owner's
signer flag, the loaded record, the two token-account parse views and the
storage account's lamport balance. -/
structure CloseInputs where
  owner_acc : AccountInfo
  swap_key : Pubkey
  vault_base_key : Pubkey
  owner_base_key : Pubkey
  swap_state : Option SwapState
  vault_base_token : Option TokenAccountData
  owner_base_token : Option TokenAccountData
  swap_lamports : Nat
  deriving DecidableEq, Repr

/-- The close handler, `close` in `src/instructions/close.rs`: signer check,
record load, owner / vault / mint / custody checks, conditional full-balance
transfer, vault close, lamport sweep and `data.fill(0)`. On success the
returned record is the post-call content of the storage account (all zero). -/
def close (i : CloseInputs) : List Effect × Except SwapErr SwapState :=
  if i.owner_acc.is_signer = false then ([], .error .missingRequiredSignature) else
  match i.swap_state with
  | none => ([], .error .invalidAccountData)
  | some st =>
  if st.owner ≠ i.owner_acc.key then ([], .error .notOwner) else
  if st.base ≠ i.vault_base_key then ([], .error .wrongVaultBase) else
  match i.vault_base_token with
  | none => ([], .error .invalidAccountData)
  | some vt =>
  match i.owner_base_token with
  | none => ([], .error .invalidAccountData)
  | some ot =>
  if vt.mint ≠ ot.mint then ([], .error .wrongMintBase) else
  if vt.owner ≠ i.swap_key then ([], .error .wrongOwnerBase) else
  let leg_transfer : List Effect :=
    if vt.amount > 0 then
      [.tokenTransfer i.vault_base_key i.owner_base_key i.swap_key vt.amount]
    else []
  let leg_sweep : List Effect :=
    if i.swap_lamports > 0 then
      [.solTransfer i.swap_key i.owner_acc.key i.swap_lamports]
    else []
  (leg_transfer ++ [.closeAccount i.vault_base_key i.owner_acc.key i.swap_key] ++ leg_sweep,
   .ok zeroSwapState)

/-! ## Characterization of the conversion engine -/

/-- `compute_base_units` returns `ok r` exactly when the price is nonzero, no
128-bit intermediate overflows, and the floor quotient `r` is a nonzero value
that fits in 64 bits. -/
theorem compute_base_units_ok_iff (q p bd qd r : Nat) :
    compute_base_units q p bd qd = Except.ok r ↔
      (p ≠ 0 ∧ 10 ^ bd < U128_SIZE ∧ 10 ^ qd < U128_SIZE ∧
       q * 10 ^ bd < U128_SIZE ∧ q * 10 ^ bd * 1000000000 < U128_SIZE ∧
       p * 10 ^ qd < U128_SIZE ∧
       r = q * 10 ^ bd * 1000000000 / (p * 10 ^ qd) ∧ r ≠ 0 ∧ r ≤ U64_MAX) := by
  by_cases hp : p = 0
  · simp [compute_base_units, hp]
  by_cases h1 : 10 ^ bd < U128_SIZE
  case neg => simp [compute_base_units, checked_pow10_u128, hp, h1]
  by_cases h2 : 10 ^ qd < U128_SIZE
  case neg => simp [compute_base_units, checked_pow10_u128, hp, h1, h2]
  by_cases h3 : q * 10 ^ bd < U128_SIZE
  case neg => simp [compute_base_units, checked_pow10_u128, checked_mul_u128, hp, h1, h2, h3]
  by_cases h4 : q * 10 ^ bd * 1000000000 < U128_SIZE
  case neg =>
    simp [compute_base_units, checked_pow10_u128, checked_mul_u128, hp, h1, h2, h3, h4]
  by_cases h5 : p * 10 ^ qd < U128_SIZE
  case neg =>
    simp [compute_base_units, checked_pow10_u128, checked_mul_u128, hp, h1, h2, h3, h4, h5]
  have hden : p * 10 ^ qd ≠ 0 := mul_ne_zero hp (pow_ne_zero _ (by norm_num))
  by_cases h6 : q * 10 ^ bd * 1000000000 / (p * 10 ^ qd) = 0 ∨
      U64_MAX < q * 10 ^ bd * 1000000000 / (p * 10 ^ qd)
  · simp only [compute_base_units, checked_pow10_u128, checked_mul_u128, checked_div_u128,
      if_pos h1, if_pos h2, if_pos h3, if_pos h4, if_pos h5, if_neg hp, if_neg hden]
    rw [if_pos (by exact_mod_cast h6)]
    constructor
    · intro habs; exact absurd habs (by simp)
    · rintro ⟨-, -, -, -, -, -, rfl, hr0, hrle⟩
      rcases h6 with h6 | h6
      · exact absurd h6 hr0
      · omega
  · simp only [compute_base_units, checked_pow10_u128, checked_mul_u128, checked_div_u128,
      if_pos h1, if_pos h2, if_pos h3, if_pos h4, if_pos h5, if_neg hp, if_neg hden]
    rw [if_neg (by exact_mod_cast h6)]
    push_neg at h6
    constructor
    · intro hok
      have hr : q * 10 ^ bd * 1000000000 / (p * 10 ^ qd) = r := by
        exact Except.ok.inj hok
      exact ⟨hp, h1, h2, h3, h4, h5, hr.symm, by omega, by omega⟩
    · rintro ⟨-, -, -, -, -, -, rfl, -, -⟩; rfl

/-- Claim C1: for every call of `compute_base_units(quote_in, price_scaled,
base_decimals, quote_decimals)` whose 128-bit intermediates do not overflow:
with `price_scaled = 0` the call errors; with `price_scaled > 0` the call
returns exactly the floor value
`quote_in * 10^base_decimals * 10^9 / (price_scaled * 10^quote_decimals)`
whenever that floor is nonzero and fits in 64 bits, and errors (never wraps,
never silently returns 0) whenever the floor is 0 or exceeds the 64-bit
maximum; and concretely a 1:1 price on two 9-decimal assets converts
`1_000_000_000` quote into `1_000_000_000` base. -/
theorem c1_compute_base_units_correct (q p bd qd : Nat)
    (h1 : 10 ^ bd < U128_SIZE) (h2 : 10 ^ qd < U128_SIZE)
    (h3 : q * 10 ^ bd < U128_SIZE)
    (h4 : q * 10 ^ bd * 1000000000 < U128_SIZE)
    (h5 : p * 10 ^ qd < U128_SIZE) :
    (p = 0 → compute_base_units q p bd qd = Except.error SwapErr.invalidParameters) ∧
    (p ≠ 0 →
      (spec_quote_to_base q p bd qd ≠ 0 ∧ spec_quote_to_base q p bd qd ≤ U64_MAX →
        compute_base_units q p bd qd = Except.ok (spec_quote_to_base q p bd qd)) ∧
      (spec_quote_to_base q p bd qd = 0 ∨ U64_MAX < spec_quote_to_base q p bd qd →
        compute_base_units q p bd qd = Except.error SwapErr.invalidParameters)) ∧
    compute_base_units 1000000000 1000000000 9 9 = Except.ok 1000000000 := by
  refine ⟨fun hp => by simp [compute_base_units, hp], fun hp => ⟨fun hr => ?_, fun hr => ?_⟩, by rfl⟩
  · exact (compute_base_units_ok_iff q p bd qd _).mpr
      ⟨hp, h1, h2, h3, h4, h5, rfl, hr.1, hr.2⟩
  · have hden : p * 10 ^ qd ≠ 0 := mul_ne_zero hp (pow_ne_zero _ (by norm_num))
    simp only [compute_base_units, checked_pow10_u128, checked_mul_u128, checked_div_u128,
      if_pos h1, if_pos h2, if_pos h3, if_pos h4, if_pos h5, if_neg hp, if_neg hden]
    rw [if_pos]
    exact_mod_cast hr

/-- Witness for C1 at concrete inputs: 250 quote units at price 4e9 over equal
decimals yield floor(250e9 / 4e9) = 62 base units. -/
theorem c1_witness :
    (10 : Nat) ^ 6 < U128_SIZE ∧
    compute_base_units 250 4000000000 6 6 = Except.ok 62 := by
  have h := c1_compute_base_units_correct 250 4000000000 6 6
    (by norm_num [U128_SIZE]) (by norm_num [U128_SIZE]) (by norm_num [U128_SIZE])
    (by norm_num [U128_SIZE]) (by norm_num [U128_SIZE])
  refine ⟨by norm_num [U128_SIZE], ?_⟩
  have h62 : spec_quote_to_base 250 4000000000 6 6 = 62 := by decide
  have := (h.2.1 (by norm_num)).1 (by rw [h62]; exact ⟨by norm_num, by norm_num [U64_MAX]⟩)
  rw [h62] at this
  exact this

/-- Claim C3: with price and decimals fixed, the conversion is monotonically
non-decreasing in `quote_in` across succeeding calls, and every successful
result `r` satisfies the floor property
`r * den ≤ quote_in * 10^bd * 10^9 < (r + 1) * den` with
`den = price * 10^qd` — i.e. `r` is at most the exact rational value and the
exact value is below `r + 1`. -/
theorem c3_monotone_and_floor :
    (∀ p bd qd q1 q2 r1 r2, q1 ≤ q2 →
      compute_base_units q1 p bd qd = Except.ok r1 →
      compute_base_units q2 p bd qd = Except.ok r2 → r1 ≤ r2) ∧
    (∀ q p bd qd r, compute_base_units q p bd qd = Except.ok r →
      r * (p * 10 ^ qd) ≤ q * 10 ^ bd * 1000000000 ∧
      q * 10 ^ bd * 1000000000 < (r + 1) * (p * 10 ^ qd)) := by
  constructor
  · intro p bd qd q1 q2 r1 r2 hq h1 h2
    obtain ⟨-, -, -, -, -, -, hr1, -, -⟩ := (compute_base_units_ok_iff q1 p bd qd r1).mp h1
    obtain ⟨-, -, -, -, -, -, hr2, -, -⟩ := (compute_base_units_ok_iff q2 p bd qd r2).mp h2
    subst hr1; subst hr2
    exact Nat.div_le_div_right (Nat.mul_le_mul_right _ (Nat.mul_le_mul_right _ hq))
  · intro q p bd qd r h
    obtain ⟨hp, -, -, -, -, -, hr, -, -⟩ := (compute_base_units_ok_iff q p bd qd r).mp h
    have hden : 0 < p * 10 ^ qd :=
      Nat.pos_of_ne_zero (mul_ne_zero hp (pow_ne_zero _ (by norm_num)))
    subst hr
    constructor
    · exact Nat.div_mul_le_self _ _
    · exact (Nat.div_lt_iff_lt_mul hden).mp (Nat.lt_succ_self _)

/-- Witness for C3 at concrete inputs: 3 ≤ 10 quote units at price 2e9 with
0 decimals on both sides give 1 ≤ 5 base units, and 1 * 2e9 ≤ 3e9. -/
theorem c3_witness :
    compute_base_units 3 2000000000 0 0 = Except.ok 1 ∧
    compute_base_units 10 2000000000 0 0 = Except.ok 5 ∧
    (1 : Nat) ≤ 5 ∧
    1 * (2000000000 * 10 ^ (0 : Nat)) ≤ 3 * 10 ^ (0 : Nat) * 1000000000 := by
  refine ⟨by rfl, by rfl, ?_, ?_⟩
  · exact c3_monotone_and_floor.1 2000000000 0 0 3 10 1 5
      (by norm_num) (by rfl) (by rfl)
  · exact (c3_monotone_and_floor.2 3 2000000000 0 0 1 (by rfl)).1

/-- The base-side and quote-side bonus helpers have the same arithmetic body
(they differ in the source only in the width of the parameter the caller
widens to `u128` before the product). -/
theorem bonus_helpers_agree (pct amt : Nat) :
    calculate_base_bonus pct amt = calculate_quote_bonus pct amt := rfl

/-- Claim C4: for every `amount` (a 64-bit value) and rate, both bonus helpers
return 0 at rate 0 and `amount` at rate 100e9 x 100 = 100_000_000_000; in
general, when the 128-bit product does not overflow and the floored result
fits in 64 bits, they return `floor(amount * pct / 100e9x100)`; a product
overflow or an over-64-bit result is an error, never a clamp. -/
theorem c4_apply_bonus (pct amount : Nat) (hamt : amount ≤ U64_MAX) :
    (calculate_base_bonus 0 amount = Except.ok 0 ∧
     calculate_quote_bonus 0 amount = Except.ok 0) ∧
    (calculate_base_bonus 100000000000 amount = Except.ok amount ∧
     calculate_quote_bonus 100000000000 amount = Except.ok amount) ∧
    (amount * pct < U128_SIZE ∧ amount * pct / 100000000000 ≤ U64_MAX →
      calculate_base_bonus pct amount = Except.ok (amount * pct / 100000000000) ∧
      calculate_quote_bonus pct amount = Except.ok (amount * pct / 100000000000)) ∧
    (U128_SIZE ≤ amount * pct →
      calculate_base_bonus pct amount = Except.error SwapErr.invalidParameters ∧
      calculate_quote_bonus pct amount = Except.error SwapErr.invalidParameters) ∧
    (amount * pct < U128_SIZE ∧ U64_MAX < amount * pct / 100000000000 →
      calculate_base_bonus pct amount = Except.error SwapErr.invalidParameters ∧
      calculate_quote_bonus pct amount = Except.error SwapErr.invalidParameters) := by
  have hzero : calculate_base_bonus 0 amount = Except.ok 0 := by
    simp [calculate_base_bonus]
  have hfull : calculate_base_bonus 100000000000 amount = Except.ok amount := by
    have hm : amount * 100000000000 < U128_SIZE :=
      lt_of_le_of_lt (Nat.mul_le_mul_right _ hamt) (by norm_num [U64_MAX, U128_SIZE])
    have hd : amount * 100000000000 / 100000000000 = amount := by omega
    simp only [calculate_base_bonus, checked_mul_u128, checked_div_u128,
      if_pos hm, if_neg (by norm_num : ¬(100000000000 : Nat) = 0),
      if_neg (by norm_num : ¬(100000000000 : Nat) = 0), hd]
    rw [if_neg (by omega)]
  have hgen : amount * pct < U128_SIZE ∧ amount * pct / 100000000000 ≤ U64_MAX →
      calculate_base_bonus pct amount = Except.ok (amount * pct / 100000000000) := by
    rintro ⟨hm, hfit⟩
    by_cases hpct : pct = 0
    · subst hpct; simpa using hzero
    · simp only [calculate_base_bonus, checked_mul_u128, checked_div_u128,
        if_pos hm, if_neg hpct, if_neg (by norm_num : ¬(100000000000 : Nat) = 0)]
      rw [if_neg (by omega)]
  have hovf : U128_SIZE ≤ amount * pct →
      calculate_base_bonus pct amount = Except.error SwapErr.invalidParameters := by
    intro hm
    have hpct : pct ≠ 0 := by
      rintro rfl; simp [U128_SIZE] at hm
    simp only [calculate_base_bonus, checked_mul_u128, if_neg hpct]
    rw [if_neg (by omega)]
  have hbig : amount * pct < U128_SIZE ∧ U64_MAX < amount * pct / 100000000000 →
      calculate_base_bonus pct amount = Except.error SwapErr.invalidParameters := by
    rintro ⟨hm, hfit⟩
    have hpct : pct ≠ 0 := by
      rintro rfl; simp [U64_MAX] at hfit
    simp only [calculate_base_bonus, checked_mul_u128, checked_div_u128,
      if_pos hm, if_neg hpct, if_neg (by norm_num : ¬(100000000000 : Nat) = 0)]
    rw [if_pos (by omega)]
  exact ⟨⟨hzero, (bonus_helpers_agree 0 amount) ▸ hzero⟩,
    ⟨hfull, (bonus_helpers_agree 100000000000 amount) ▸ hfull⟩,
    fun h => ⟨hgen h, (bonus_helpers_agree pct amount) ▸ hgen h⟩,
    fun h => ⟨hovf h, (bonus_helpers_agree pct amount) ▸ hovf h⟩,
    fun h => ⟨hbig h, (bonus_helpers_agree pct amount) ▸ hbig h⟩⟩

/-- Witness for C4 at concrete inputs: a 50% rate on 7 units floors to 3, a
100% rate reproduces the amount, a 0% rate gives 0. -/
theorem c4_witness :
    calculate_base_bonus 0 7 = Except.ok 0 ∧
    calculate_base_bonus 100000000000 7 = Except.ok 7 ∧
    calculate_base_bonus 50000000000 7 = Except.ok 3 ∧
    calculate_quote_bonus 50000000000 7 = Except.ok 3 := by
  have h := c4_apply_bonus 50000000000 7 (by norm_num [U64_MAX])
  have h3 : (7 : Nat) * 50000000000 / 100000000000 = 3 := by norm_num
  have hg := h.2.2.1 ⟨by norm_num [U128_SIZE], by rw [h3]; norm_num [U64_MAX]⟩
  exact ⟨h.1.1, h.2.1.1, by rw [← h3]; exact hg.1, by rw [← h3]; exact hg.2⟩

/-! ## Swap handler lemmas -/

/-- Once every account validation of the swap handler passes, the handler's
outcome is exactly that of its computation-and-transfer stage. The hypotheses
are the validation conditions of `swap.rs` lines 58-126, in source order. -/
theorem swap_reaches_transfers (i : SwapInputs) (data : List Nat) (st : SwapState)
    (vb ub uq : TokenAccountData) (bm : MintData) (qd : Nat)
    (hsig : i.user_acc.is_signer = true)
    (hlen : data.length = 8)
    (hqz : leBytes data ≠ 0)
    (hst : i.swap_state = some st)
    (hvb : i.vault_base = some vb)
    (hub : i.user_base = some ub)
    (huq : i.user_quote = some uq)
    (hbm : i.base_mint = some bm)
    (hqd : (if st.quote_sol then some 9 else i.quote_mint.map MintData.decimals) = some qd)
    (hc1 : st.base = i.vault_base_key)
    (hc2 : st.quote = i.vault_quote_key)
    (hc3 : vb.owner = i.swap_acc_key)
    (hc4 : vb.mint = ub.mint)
    (hc5 : vb.mint = i.base_mint_key)
    (hbr : if st.quote_sol then i.quote_mint_key = WSOL_MINT
           else ∃ vq, i.vault_quote = some vq ∧ vq.owner ≠ i.swap_acc_key ∧
             vq.mint = uq.mint ∧ vq.mint = i.quote_mint_key) :
    swap i data = swapTransfers i st (leBytes data) bm.decimals qd := by
  unfold swap
  rw [hsig, hst, hvb, hub, huq, hbm]
  simp only [Bool.true_eq_false, if_false, hlen, hqd]
  rw [if_neg (by norm_num), if_neg (by exact fun h => hqz h)]
  rw [if_neg (by rw [hc1]; exact fun h => h rfl),
      if_neg (by rw [hc2]; exact fun h => h rfl),
      if_neg (by rw [hc3]; exact fun h => h rfl),
      if_neg (by rw [hc4]; exact fun h => h rfl),
      if_neg (by rw [hc5]; exact fun h => h rfl)]
  cases hqs : st.quote_sol with
  | false =>
    rw [hqs] at hbr
    simp only [Bool.false_eq_true, if_false] at hbr
    obtain ⟨vq, hvq, hvqo, hvqm1, hvqm2⟩ := hbr
    have h12 : uq.mint = i.quote_mint_key := by rw [← hvqm1]; exact hvqm2
    simp [hvq, hvqo, hvqm1, h12]
  | true =>
    rw [hqs] at hbr
    simp only [if_true] at hbr
    simp [hbr]

/-- In the transfer stage, once the conversion and a bonus `b` not exceeding
`quote_in` are computed, the issued effects contain the taker-to-vault quote
deposit of exactly `quote_in - b` (an SPL transfer on the token path, a
lamports transfer on the native path). -/
theorem swapTransfers_vault_deposit (i : SwapInputs) (st : SwapState)
    (quote_in bd qd b bo : Nat)
    (hcomp : compute_base_units quote_in st.price bd qd = Except.ok bo)
    (hqb : (if st.bonus_quote ≠ 0 ∧ i.bonus_quote_key ≠ i.user_quote_key
            then calculate_quote_bonus st.bonus_quote quote_in
            else Except.ok 0) = Except.ok b)
    (hble : b ≤ quote_in) :
    (st.quote_sol = false →
      Effect.transferChecked i.user_quote_key i.quote_mint_key i.vault_quote_key
        i.user_acc.key (quote_in - b) qd ∈ (swapTransfers i st quote_in bd qd).1) ∧
    (st.quote_sol = true →
      Effect.solTransfer i.user_acc.key i.vault_quote_key (quote_in - b) ∈
        (swapTransfers i st quote_in bd qd).1) := by
  have hsub : checked_sub_u64 quote_in b = some (quote_in - b) := by
    simp [checked_sub_u64, hble]
  unfold swapTransfers
  simp only [hcomp, hqb, hsub]
  cases hqs : st.quote_sol with
  | false =>
    refine ⟨fun _ => ?_, fun h => Bool.noConfusion h⟩
    simp [List.mem_append]
  | true =>
    refine ⟨fun h => Bool.noConfusion h, fun _ => ?_⟩
    simp [List.mem_append]

/-- In the transfer stage, a computed quote bonus strictly exceeding `quote_in`
makes the handler abort with `InvalidParameters` before issuing any effect
(the `checked_sub` underflow guard of `swap.rs` line 146). -/
theorem swapTransfers_underflow (i : SwapInputs) (st : SwapState)
    (quote_in bd qd b bo : Nat)
    (hcomp : compute_base_units quote_in st.price bd qd = Except.ok bo)
    (hqb : (if st.bonus_quote ≠ 0 ∧ i.bonus_quote_key ≠ i.user_quote_key
            then calculate_quote_bonus st.bonus_quote quote_in
            else Except.ok 0) = Except.ok b)
    (hbg : quote_in < b) :
    swapTransfers i st quote_in bd qd = ([], some SwapErr.invalidParameters) := by
  have hsub : checked_sub_u64 quote_in b = none := by
    simp only [checked_sub_u64, ite_eq_right_iff]
    omega
  unfold swapTransfers
  simp [hcomp, hqb, hsub]

/-- Claim C2: in a swap that has passed account validation, the quote-side
bonus is the computed `calculate_quote_bonus` value only when the stored
`bonus_quote` rate is nonzero and the bonus recipient differs from the taker's
quote account, and is 0 otherwise; the amount deposited from the taker into
the vault is exactly `quote_in - quote_bonus` (on both the token and the
native path); and a bonus exceeding `quote_in` aborts with an error and no
transfer instead of underflowing. -/
theorem c2_swap_quote_bonus (i : SwapInputs) (data : List Nat) (st : SwapState)
    (vb ub uq : TokenAccountData) (bm : MintData) (qd : Nat)
    (hsig : i.user_acc.is_signer = true)
    (hlen : data.length = 8)
    (hqz : leBytes data ≠ 0)
    (hst : i.swap_state = some st)
    (hvb : i.vault_base = some vb)
    (hub : i.user_base = some ub)
    (huq : i.user_quote = some uq)
    (hbm : i.base_mint = some bm)
    (hqd : (if st.quote_sol then some 9 else i.quote_mint.map MintData.decimals) = some qd)
    (hc1 : st.base = i.vault_base_key)
    (hc2 : st.quote = i.vault_quote_key)
    (hc3 : vb.owner = i.swap_acc_key)
    (hc4 : vb.mint = ub.mint)
    (hc5 : vb.mint = i.base_mint_key)
    (hbr : if st.quote_sol then i.quote_mint_key = WSOL_MINT
           else ∃ vq, i.vault_quote = some vq ∧ vq.owner ≠ i.swap_acc_key ∧
             vq.mint = uq.mint ∧ vq.mint = i.quote_mint_key) :
    ((st.bonus_quote = 0 ∨ i.bonus_quote_key = i.user_quote_key) →
      (if st.bonus_quote ≠ 0 ∧ i.bonus_quote_key ≠ i.user_quote_key
       then calculate_quote_bonus st.bonus_quote (leBytes data)
       else Except.ok 0) = Except.ok 0) ∧
    (∀ b bo,
      (if st.bonus_quote ≠ 0 ∧ i.bonus_quote_key ≠ i.user_quote_key
       then calculate_quote_bonus st.bonus_quote (leBytes data)
       else Except.ok 0) = Except.ok b →
      compute_base_units (leBytes data) st.price bm.decimals qd = Except.ok bo →
      b ≤ leBytes data →
      ((st.quote_sol = false →
         Effect.transferChecked i.user_quote_key i.quote_mint_key i.vault_quote_key
           i.user_acc.key (leBytes data - b) qd ∈ (swap i data).1) ∧
       (st.quote_sol = true →
         Effect.solTransfer i.user_acc.key i.vault_quote_key (leBytes data - b) ∈
           (swap i data).1))) ∧
    (∀ b bo,
      (if st.bonus_quote ≠ 0 ∧ i.bonus_quote_key ≠ i.user_quote_key
       then calculate_quote_bonus st.bonus_quote (leBytes data)
       else Except.ok 0) = Except.ok b →
      compute_base_units (leBytes data) st.price bm.decimals qd = Except.ok bo →
      leBytes data < b →
      swap i data = ([], some SwapErr.invalidParameters)) := by
  have hstage := swap_reaches_transfers i data st vb ub uq bm qd hsig hlen hqz hst hvb hub
    huq hbm hqd hc1 hc2 hc3 hc4 hc5 hbr
  refine ⟨fun h => ?_, fun b bo hqb hcomp hble => ?_, fun b bo hqb hcomp hbg => ?_⟩
  · rw [if_neg]
    rintro ⟨h1, h2⟩
    rcases h with h | h
    · exact h1 h
    · exact h2 h
  · rw [hstage]
    exact swapTransfers_vault_deposit i st (leBytes data) bm.decimals qd b bo hcomp hqb hble
  · rw [hstage]
    exact swapTransfers_underflow i st (leBytes data) bm.decimals qd b bo hcomp hqb hbg

/-- Concrete swap-handler inputs for the C2 witness: a fully valid non-native
position with a 1% quote-side bonus rate and a distinct bonus recipient. -/
def c2Inputs : SwapInputs :=
  { user_acc := ⟨1, true⟩, swap_acc_key := 2, vault_base_key := 3, vault_quote_key := 4,
    user_base_key := 5, user_quote_key := 6, base_mint_key := 7, quote_mint_key := 8,
    bonus_base_key := 9, bonus_quote_key := 10, wsol_temp_key := 11,
    swap_state := some
      { owner := 100, base := 3, quote := 4, uuid := 42,
        price := 1000000000, bonus_base := 0, bonus_quote := 1000000000,
        bump_seed := 254, quote_sol := false },
    vault_base := some ⟨7, 2, 0⟩, user_base := some ⟨7, 1, 0⟩,
    user_quote := some ⟨8, 1, 0⟩, base_mint := some ⟨9⟩, quote_mint := some ⟨9⟩,
    vault_quote := some ⟨8, 99, 0⟩, bonus_base_token := none }

/-- The C2 witness payload: `quote_in = 1_000_000_000` in little-endian bytes. -/
def c2Data : List Nat := natToLeBytes 1000000000 8

/-- Witness for C2 at concrete inputs: with a 1% quote bonus on a 1e9 deposit,
the vault receives exactly 990_000_000 quote units. -/
theorem c2_witness :
    Effect.transferChecked 6 8 4 1 990000000 9 ∈ (swap c2Inputs c2Data).1 := by
  have h := c2_swap_quote_bonus c2Inputs c2Data
    { owner := 100, base := 3, quote := 4, uuid := 42, price := 1000000000,
      bonus_base := 0, bonus_quote := 1000000000, bump_seed := 254, quote_sol := false }
    ⟨7, 2, 0⟩ ⟨7, 1, 0⟩ ⟨8, 1, 0⟩ ⟨9⟩ 9
    rfl rfl (by norm_num [c2Data, natToLeBytes, leBytes]) rfl rfl rfl rfl rfl rfl
    rfl rfl rfl rfl rfl
    (by exact ⟨⟨8, 99, 0⟩, rfl, by norm_num [c2Inputs], rfl, rfl⟩)
  have hq : leBytes c2Data = 1000000000 := by norm_num [c2Data, natToLeBytes, leBytes]
  have hm := (h.2.1 10000000 1000000000
    (by rw [hq]; rfl) (by rw [hq]; rfl) (by rw [hq]; norm_num)).1 rfl
  rw [hq] at hm
  norm_num at hm
  exact hm

/-- Claim C9: a swap call (with its taker signature present, the stage at
which decoding happens) whose payload length is not the fixed 8 bytes, or
whose decoded `quote_in` is zero, fails with the invalid-instruction-data
error having issued no transfer, and the outcome is the same whatever the
Position Record holds. -/
theorem c9_swap_decode_validation (i : SwapInputs) (data : List Nat)
    (hsig : i.user_acc.is_signer = true)
    (hbad : data.length ≠ 8 ∨ leBytes data = 0) :
    swap i data = ([], some SwapErr.invalidInstructionData) ∧
    (∀ s, swap { i with swap_state := s } data =
      ([], some SwapErr.invalidInstructionData)) := by
  have key : ∀ j : SwapInputs, j.user_acc.is_signer = true →
      swap j data = ([], some SwapErr.invalidInstructionData) := by
    intro j hs
    unfold swap
    rw [hs]
    rw [if_neg (by simp)]
    by_cases hl : data.length ≠ 8
    · rw [if_pos hl]
    · rw [if_neg hl]
      rcases hbad with h | h
      · exact absurd h hl
      · rw [if_pos h]
  exact ⟨key i hsig, fun s => key { i with swap_state := s } hsig⟩

/-- Concrete swap-handler inputs for the C9 witness: valid accounts with a
signing taker. -/
def c9Inputs : SwapInputs :=
  { user_acc := ⟨21, true⟩, swap_acc_key := 22, vault_base_key := 23, vault_quote_key := 24,
    user_base_key := 25, user_quote_key := 26, base_mint_key := 27, quote_mint_key := 28,
    bonus_base_key := 29, bonus_quote_key := 30, wsol_temp_key := 31,
    swap_state := some
      { owner := 200, base := 23, quote := 24, uuid := 77,
        price := 2000000000, bonus_base := 0, bonus_quote := 0,
        bump_seed := 253, quote_sol := false },
    vault_base := some ⟨27, 22, 0⟩, user_base := some ⟨27, 21, 0⟩,
    user_quote := some ⟨28, 21, 0⟩, base_mint := some ⟨6⟩, quote_mint := some ⟨6⟩,
    vault_quote := some ⟨28, 199, 0⟩, bonus_base_token := none }

/-- Witness for C9 at concrete inputs: an empty payload on otherwise valid
accounts fails with the invalid-instruction-data error and no effects. -/
theorem c9_witness :
    swap c9Inputs [] = ([], some SwapErr.invalidInstructionData) ∧
    swap { c9Inputs with swap_state := some zeroSwapState } [] =
      ([], some SwapErr.invalidInstructionData) := by
  have h := c9_swap_decode_validation c9Inputs [] rfl (Or.inl (by norm_num))
  exact ⟨h.1, h.2 (some zeroSwapState)⟩

/-! ## Open handler lemmas -/

/-- Inversion for a successful open: a written record pins down every
validation that must have passed and the exact record contents. -/
theorem create_ok_inversion (derive : Nat → Nat → Pubkey) (i : CreateInputs)
    (data : List Nat) (d : CreateData) (st : SwapState)
    (hdec : decodeCreateData data = some d)
    (hw : (create derive i data).written = some st) :
    ∃ bt qt, i.base_token = some bt ∧ i.quote_token = some qt ∧
      i.owner_acc.is_signer = true ∧ derive d.uuid d.bump_seed = i.swap_key ∧
      i.swap_data_empty = true ∧ bt.mint ≠ qt.mint ∧ bt.owner = i.swap_key ∧
      qt.owner ≠ i.swap_key ∧ d.price ≠ 0 ∧ i.rent_ok = true ∧
      st = { owner := i.owner_acc.key, base := i.base_key,
             quote := if qt.mint = WSOL_MINT then qt.owner else i.quote_key,
             uuid := d.uuid, price := d.price, bonus_base := d.bonus_base,
             bonus_quote := d.bonus_quote, bump_seed := d.bump_seed,
             quote_sol := decide (qt.mint = WSOL_MINT) } := by
  simp only [create, hdec] at hw
  unfold create_with_data at hw
  by_cases hsig : i.owner_acc.is_signer = false
  · rw [if_pos hsig] at hw; exact absurd hw (by simp)
  rw [if_neg hsig] at hw
  by_cases hpda : derive d.uuid d.bump_seed ≠ i.swap_key
  · rw [if_pos hpda] at hw; exact absurd hw (by simp)
  rw [if_neg hpda] at hw
  by_cases hempty : i.swap_data_empty = false
  · rw [if_pos hempty] at hw; exact absurd hw (by simp)
  rw [if_neg hempty] at hw
  cases hbt : i.base_token with
  | none => simp only [hbt] at hw; exact Option.noConfusion hw
  | some bt =>
  simp only [hbt] at hw
  cases hqt : i.quote_token with
  | none => simp only [hqt] at hw; exact Option.noConfusion hw
  | some qt =>
  simp only [hqt] at hw
  by_cases hmint : bt.mint = qt.mint
  · rw [if_pos hmint] at hw; exact absurd hw (by simp)
  rw [if_neg hmint] at hw
  by_cases hbo : bt.owner ≠ i.swap_key
  · rw [if_pos hbo] at hw; exact absurd hw (by simp)
  rw [if_neg hbo] at hw
  by_cases hqo : qt.owner = i.swap_key
  · rw [if_pos hqo] at hw; exact absurd hw (by simp)
  rw [if_neg hqo] at hw
  by_cases hpr : d.price = 0
  · rw [if_pos hpr] at hw; exact absurd hw (by simp)
  rw [if_neg hpr] at hw
  by_cases hrent : i.rent_ok = false
  · simp only [if_pos hrent] at hw; exact Option.noConfusion hw
  simp only [if_neg hrent] at hw
  refine ⟨bt, qt, rfl, rfl, ?_, ?_, ?_, hmint, ?_, hqo, hpr, ?_, ?_⟩
  · cases h : i.owner_acc.is_signer
    · exact absurd h hsig
    · rfl
  · by_contra h
    exact hpda h
  · cases h : i.swap_data_empty
    · exact absurd h hempty
    · rfl
  · by_contra h
    exact hbo h
  · cases h : i.rent_ok
    · exact absurd h hrent
    · rfl
  · exact (Option.some.inj hw).symm

/-- The open handler either aborts with no effect and no write, or issues
exactly the storage-account allocation and writes the record. -/
theorem create_cases (derive : Nat → Nat → Pubkey) (i : CreateInputs)
    (data : List Nat) :
    (∃ e, create derive i data = ⟨[], some e, none⟩) ∨
    (∃ st, create derive i data =
      ⟨[Effect.createAccount i.owner_acc.key i.swap_key swapStateLen], none, some st⟩) := by
  unfold create create_with_data
  split
  · exact Or.inl ⟨_, rfl⟩
  split
  · exact Or.inl ⟨_, rfl⟩
  split
  · exact Or.inl ⟨_, rfl⟩
  split
  · exact Or.inl ⟨_, rfl⟩
  split
  · exact Or.inl ⟨_, rfl⟩
  split
  · exact Or.inl ⟨_, rfl⟩
  split
  · exact Or.inl ⟨_, rfl⟩
  split
  · exact Or.inl ⟨_, rfl⟩
  split
  · exact Or.inl ⟨_, rfl⟩
  split
  · exact Or.inl ⟨_, rfl⟩
  dsimp only
  split
  · exact Or.inl ⟨_, rfl⟩
  · exact Or.inr ⟨_, rfl⟩

/-- Claim C7: an open call whose storage account already holds data performs
no side effect (no allocation, no record write) and fails; when the call has
otherwise reached the emptiness check (payload decoded, owner signing, PDA
valid) the error is specifically the already-initialized condition. -/
theorem c7_create_already_populated (derive : Nat → Nat → Pubkey)
    (i : CreateInputs) (data : List Nat)
    (hne : i.swap_data_empty = false) :
    ((create derive i data).effects = [] ∧ (create derive i data).written = none ∧
      (create derive i data).err ≠ none) ∧
    (∀ d, decodeCreateData data = some d → i.owner_acc.is_signer = true →
      derive d.uuid d.bump_seed = i.swap_key →
      create derive i data = ⟨[], some SwapErr.accountTakenAlready, none⟩) := by
  constructor
  · rcases create_cases derive i data with ⟨e, he⟩ | ⟨st, hs⟩
    · rw [he]
      exact ⟨rfl, rfl, by simp⟩
    · exfalso
      cases hdec : decodeCreateData data with
      | none =>
        have h2 : (create derive i data).err = none := by rw [hs]
        simp [create, hdec] at h2
      | some d =>
        have hw : (create derive i data).written = some st := by rw [hs]
        obtain ⟨-, -, -, -, -, -, hemp, -, -, -, -, -, -⟩ :=
          create_ok_inversion derive i data d st hdec hw
        rw [hne] at hemp
        exact Bool.noConfusion hemp
  · intro d hdec hsig hpda
    simp only [create, hdec]
    unfold create_with_data
    rw [hsig, if_neg (by simp), if_neg (by rw [hpda]; exact fun h => h rfl),
      hne, if_pos rfl]

/-- Concrete open-handler inputs for the C7 witness: a valid call except that
the storage account already holds data. -/
def c7Inputs : CreateInputs :=
  { owner_acc := ⟨50, true⟩, verify_key := 51, swap_key := 52, base_key := 53,
    quote_key := 54, swap_data_empty := false,
    base_token := some ⟨70, 52, 0⟩, quote_token := some ⟨71, 60, 0⟩, rent_ok := true }

/-- The C7/C6 style payload builder: 42 bytes in the packed `CreateData`
layout. -/
def encodeCreateData (uuid price bonus_base bonus_quote bump rv : Nat) : List Nat :=
  natToLeBytes uuid 16 ++ natToLeBytes price 8 ++ natToLeBytes bonus_base 8 ++
    natToLeBytes bonus_quote 8 ++ [bump, rv]

/-- Witness for C7 at concrete inputs: opening over a populated storage
account yields exactly the already-initialized error with no effects. -/
theorem c7_witness :
    create (fun _ _ => 52) c7Inputs (encodeCreateData 5 1000000000 0 0 7 0) =
      ⟨[], some SwapErr.accountTakenAlready, none⟩ := by
  have h := c7_create_already_populated (fun _ _ => 52) c7Inputs
    (encodeCreateData 5 1000000000 0 0 7 0) rfl
  exact h.2
    { uuid := 5, price := 1000000000, bonus_base := 0, bonus_quote := 0,
      bump_seed := 7, require_verify := 0 } (by rfl) rfl rfl

/-! ## C5: native-quote handling at open -/

/-- Concrete open-handler inputs refuting C5 as stated: the caller intends a
native-quote position and supplies a plain recipient account for the quote
leg, one that does not parse as a token account. -/
def c5Inputs : CreateInputs :=
  { owner_acc := ⟨80, true⟩, verify_key := 81, swap_key := 82, base_key := 83,
    quote_key := 84, swap_data_empty := true,
    base_token := some ⟨90, 82, 0⟩, quote_token := none, rent_ok := true }

/-- Counterexample to C5 as stated: the open handler always demands a quote
account that parses as a token account — with a plain native recipient
supplied instead, the call fails and writes no record, although the claim
says no quote custodial token account is required when quote is native. -/
theorem c5_counterexample :
    create (fun _ _ => 82) c5Inputs (encodeCreateData 9 1000000000 0 0 3 0) =
      ⟨[], some SwapErr.invalidAccountData, none⟩ := by rfl

/-- Claim C5 (amended): open always requires the quote account to parse as a
token account (a missing parse writes no record); when the parsed quote
account's mint is the native-wrapped mint, the written record stores that
account's owner — the quote recipient identity, not a vault address — and
marks the position native; and a quote account whose owner equals the derived
storage address always prevents a record from being written. -/
theorem c5_native_quote_record (derive : Nat → Nat → Pubkey) (i : CreateInputs)
    (data : List Nat) :
    (i.quote_token = none → (create derive i data).written = none) ∧
    (∀ d qt st, decodeCreateData data = some d → i.quote_token = some qt →
      (create derive i data).written = some st →
      (qt.mint = WSOL_MINT → st.quote = qt.owner ∧ st.quote_sol = true) ∧
      qt.owner ≠ i.swap_key) ∧
    (∀ qt, i.quote_token = some qt → qt.owner = i.swap_key →
      (create derive i data).written = none) := by
  have wnone : decodeCreateData data = none → (create derive i data).written = none := by
    intro h
    simp [create, h]
  refine ⟨fun hq => ?_, fun d qt st hdec hq hw => ?_, fun qt hq hqo => ?_⟩
  · cases hdec : decodeCreateData data with
    | none => exact wnone hdec
    | some d =>
      cases hw : (create derive i data).written with
      | none => rfl
      | some st =>
        obtain ⟨bt, qt, -, hqt, -⟩ := create_ok_inversion derive i data d st hdec hw
        rw [hq] at hqt
        exact Option.noConfusion hqt
  · obtain ⟨bt, qt2, -, hqt, -, -, -, -, -, hqo, -, -, hst⟩ :=
      create_ok_inversion derive i data d st hdec hw
    rw [hq] at hqt
    have hqq : qt = qt2 := Option.some.inj hqt
    subst hqq
    refine ⟨fun hm => ?_, hqo⟩
    rw [hst]
    constructor
    · simp [hm]
    · simp [hm]
  · cases hdec : decodeCreateData data with
    | none => exact wnone hdec
    | some d =>
      cases hw : (create derive i data).written with
      | none => rfl
      | some st =>
        obtain ⟨bt, qt2, -, hqt, -, -, -, -, -, hqo2, -, -, -⟩ :=
          create_ok_inversion derive i data d st hdec hw
        rw [hq] at hqt
        have hqq : qt = qt2 := Option.some.inj hqt
        subst hqq
        exact absurd hqo hqo2

/-- Concrete open-handler inputs for the C5 witness: a valid native-quote open
where the supplied quote account is a wrapped-native token account owned by
the intended recipient (identity 85). -/
def c5NativeInputs : CreateInputs :=
  { owner_acc := ⟨80, true⟩, verify_key := 81, swap_key := 82, base_key := 83,
    quote_key := 84, swap_data_empty := true,
    base_token := some ⟨90, 82, 0⟩, quote_token := some ⟨WSOL_MINT, 85, 0⟩,
    rent_ok := true }

/-- The record the C5 witness open writes. -/
def c5NativeState : SwapState :=
  { owner := 80, base := 83, quote := 85, uuid := 9, price := 1000000000,
    bonus_base := 0, bonus_quote := 0, bump_seed := 3, quote_sol := true }

/-- Witness for C5 (amended) at concrete inputs: the native-quote open writes
a record whose quote field is the recipient identity 85, not an account
address, with the native flag set. -/
theorem c5_witness :
    (create (fun _ _ => 82) c5NativeInputs (encodeCreateData 9 1000000000 0 0 3 0)).written
      = some c5NativeState ∧
    c5NativeState.quote = 85 ∧ c5NativeState.quote_sol = true := by
  have hw : (create (fun _ _ => 82) c5NativeInputs
      (encodeCreateData 9 1000000000 0 0 3 0)).written = some c5NativeState := by rfl
  have h := (c5_native_quote_record (fun _ _ => 82) c5NativeInputs
      (encodeCreateData 9 1000000000 0 0 3 0)).2.1
    { uuid := 9, price := 1000000000, bonus_base := 0, bonus_quote := 0,
      bump_seed := 3, require_verify := 0 }
    ⟨WSOL_MINT, 85, 0⟩ c5NativeState (by rfl) rfl hw
  exact ⟨hw, (h.1 rfl).1, (h.1 rfl).2⟩

/-! ## C6: bonus-rate bounds at open -/

/-- Concrete open-handler inputs refuting C6: a fully valid open whose payload
carries a 200% base-side bonus rate. -/
def c6Inputs : CreateInputs :=
  { owner_acc := ⟨50, true⟩, verify_key := 51, swap_key := 52, base_key := 53,
    quote_key := 54, swap_data_empty := true,
    base_token := some ⟨70, 52, 0⟩, quote_token := some ⟨71, 60, 0⟩, rent_ok := true }

/-- The record the C6 counterexample open writes: `bonus_base` is 200e9, twice
the claimed 100e9 upper bound. -/
def c6State : SwapState :=
  { owner := 50, base := 53, quote := 54, uuid := 5, price := 1000000000,
    bonus_base := 200000000000, bonus_quote := 0, bump_seed := 7, quote_sol := false }

/-- Counterexample to C6 as stated: a successful open writes a Position Record
whose `bonus_base` is 200e9 > 100e9 — the handler never checks the bound. -/
theorem c6_counterexample :
    (create (fun _ _ => 52) c6Inputs
      (encodeCreateData 5 1000000000 200000000000 0 7 0)).written = some c6State ∧
    100000000000 < c6State.bonus_base := by
  exact ⟨by rfl, by norm_num [c6State]⟩

/-- Claim C6 (amended): every Position Record produced by a successful open
carries exactly the payload's `bonus_base` and `bonus_quote` rates; the
0 to 100e9 range is not enforced, so any 64-bit rate is stored verbatim. -/
theorem c6_bonus_rates_passthrough (derive : Nat → Nat → Pubkey)
    (i : CreateInputs) (data : List Nat) (d : CreateData) (st : SwapState)
    (hdec : decodeCreateData data = some d)
    (hw : (create derive i data).written = some st) :
    st.bonus_base = d.bonus_base ∧ st.bonus_quote = d.bonus_quote := by
  obtain ⟨bt, qt, -, -, -, -, -, -, -, -, -, -, hst⟩ :=
    create_ok_inversion derive i data d st hdec hw
  rw [hst]
  exact ⟨rfl, rfl⟩

/-- Witness for C6 (amended) at concrete inputs: the 200% rate of the payload
is stored verbatim in the written record. -/
theorem c6_witness :
    c6State.bonus_base = 200000000000 ∧ c6State.bonus_quote = 0 := by
  have h := c6_bonus_rates_passthrough (fun _ _ => 52) c6Inputs
    (encodeCreateData 5 1000000000 200000000000 0 7 0)
    { uuid := 5, price := 1000000000, bonus_base := 200000000000, bonus_quote := 0,
      bump_seed := 7, require_verify := 0 }
    c6State (by rfl) (by rfl)
  exact h

/-! ## C10: the require_verify flag -/

/-- Taking one element before `headD` does not change `headD`. -/
theorem headD_take_one (l : List Nat) (d : Nat) : (l.take 1).headD d = l.headD d := by
  cases l <;> rfl

/-- The open handler body never reads the decoded `require_verify` field: two
payloads equal on every other field produce identical results. -/
theorem create_with_data_rv_irrelevant (derive : Nat → Nat → Pubkey)
    (i : CreateInputs) (d1 d2 : CreateData)
    (h1 : d1.uuid = d2.uuid) (h2 : d1.price = d2.price)
    (h3 : d1.bonus_base = d2.bonus_base) (h4 : d1.bonus_quote = d2.bonus_quote)
    (h5 : d1.bump_seed = d2.bump_seed) :
    create_with_data derive i d1 = create_with_data derive i d2 := by
  cases d1
  cases d2
  dsimp only at h1 h2 h3 h4 h5
  subst h1; subst h2; subst h3; subst h4; subst h5
  rfl

/-- Claim C10: two open calls on identical account inputs whose 42-byte
payloads differ only in the final `require_verify` byte have identical
outcomes — same error or same success with the same written record. -/
theorem c10_require_verify_no_effect (derive : Nat → Nat → Pubkey)
    (i : CreateInputs) (b1 b2 : List Nat)
    (h1 : b1.length = 42) (h2 : b2.length = 42)
    (hpre : b1.take 41 = b2.take 41) :
    create derive i b1 = create derive i b2 := by
  have htake : ∀ k, k ≤ 41 → b1.take k = b2.take k := by
    intro k hk
    have h := congrArg (List.take k) hpre
    rwa [List.take_take, List.take_take, Nat.min_eq_left hk] at h
  have hdrop : ∀ m k, m + k ≤ 41 → (b1.drop m).take k = (b2.drop m).take k := by
    intro m k hmk
    have h := congrArg (List.drop m) (htake (m + k) hmk)
    rwa [List.drop_take, List.drop_take, Nat.add_sub_cancel_left] at h
  have hhead : (b1.drop 40).headD 0 = (b2.drop 40).headD 0 := by
    rw [← headD_take_one (b1.drop 40) 0, ← headD_take_one (b2.drop 40) 0,
      hdrop 40 1 (by norm_num)]
  simp only [create, decodeCreateData, h1, h2, if_pos rfl]
  exact create_with_data_rv_irrelevant derive i _ _
    (congrArg leBytes (htake 16 (by norm_num)))
    (congrArg leBytes (hdrop 16 8 (by norm_num)))
    (congrArg leBytes (hdrop 24 8 (by norm_num)))
    (congrArg leBytes (hdrop 32 8 (by norm_num)))
    hhead

/-- Witness for C10 at concrete inputs: the same open with `require_verify`
byte 0 and 1 produces the same result. -/
theorem c10_witness :
    create (fun _ _ => 52) c6Inputs (encodeCreateData 5 1000000000 0 0 7 0) =
      create (fun _ _ => 52) c6Inputs (encodeCreateData 5 1000000000 0 0 7 1) := by
  exact c10_require_verify_no_effect (fun _ _ => 52) c6Inputs
    (encodeCreateData 5 1000000000 0 0 7 0)
    (encodeCreateData 5 1000000000 0 0 7 1)
    (by rfl) (by rfl) (by rfl)

/-! ## C8: close is not repeatable -/

/-- Claim C8: every successful close leaves the stored record with all fields
zero; and a close over an already-zeroed record whose caller key is not the
all-zero identity (no authorizing signer can hold the zero key) fails with an
error before issuing any transfer. -/
theorem c8_close_not_repeatable :
    (∀ i effs st, close i = (effs, Except.ok st) → st = zeroSwapState) ∧
    (∀ i : CloseInputs, i.swap_state = some zeroSwapState →
      i.owner_acc.is_signer = true → i.owner_acc.key ≠ 0 →
      (close i).1 = [] ∧ (close i).2 = Except.error SwapErr.notOwner) := by
  constructor
  · intro i effs st h
    unfold close at h
    repeat' split at h
    all_goals simp_all [Prod.ext_iff]
  · intro i hst hsig hk
    unfold close
    rw [hsig, if_neg (by simp)]
    simp only [hst]
    rw [if_pos (show zeroSwapState.owner ≠ i.owner_acc.key from fun h => hk h.symm)]
    exact ⟨rfl, rfl⟩

/-- Concrete close-handler inputs for the C8 witness: a valid close by the
owner over a vault holding 500 base units. -/
def c8Inputs : CloseInputs :=
  { owner_acc := ⟨60, true⟩, swap_key := 61, vault_base_key := 62, owner_base_key := 63,
    swap_state := some
      { owner := 60, base := 62, quote := 64, uuid := 8, price := 1000000000,
        bonus_base := 0, bonus_quote := 0, bump_seed := 9, quote_sol := false },
    vault_base_token := some ⟨65, 61, 500⟩, owner_base_token := some ⟨65, 60, 0⟩,
    swap_lamports := 1000 }

/-- Witness for C8 at concrete inputs: the successful close stores the zero
record, and a second close over the zeroed record issues nothing and fails
with the not-owner error. -/
theorem c8_witness :
    zeroSwapState = zeroSwapState ∧
    (close { c8Inputs with swap_state := some zeroSwapState }).1 = [] ∧
    (close { c8Inputs with swap_state := some zeroSwapState }).2 =
      Except.error SwapErr.notOwner := by
  have h2 := c8_close_not_repeatable.2 { c8Inputs with swap_state := some zeroSwapState }
    rfl rfl (by norm_num [c8Inputs])
  refine ⟨?_, h2.1, h2.2⟩
  exact c8_close_not_repeatable.1 c8Inputs
    [Effect.tokenTransfer 62 63 61 500, Effect.closeAccount 62 60 61,
     Effect.solTransfer 61 60 1000] zeroSwapState (by rfl)

end AquaSwap
